import Mathlib

/-!
Verification of the completion token primitive in src/src/completion_token.rs.

The Rust cell is an Arc-Mutex around an enum with three states:
Token::New, Token::Pending(Waker), Token::Complete(T). Every operation
locks the mutex, transforms the state with mem::swap, and unlocks; we
model each operation as a pure function from the cell state to the new
cell state plus its observable output, which captures the whole critical
section as one atomic step. Wake handles are modelled as opaque natural
number identifiers; waking a waker is recorded by returning the handle
rather than performed as an effect. Arc pointer identity across clones is
modelled by a heap of cells indexed by natural numbers, a token handle
being the index of its shared cell.
-/

namespace CompletionToken

/-- Opaque wake handle; core::task::Waker is only cloned, compared by the
pointer of the Arc that stores it, and woken, so an identifier suffices. -/
abbrev Waker := Nat

/-- The private enum Token of completion_token.rs: New is the empty cell
with no registered waiter, Pending holds the registered waiter of a
suspended observer, Complete holds a deposited value. -/
inductive Token (T : Type) where
  | new : Token T
  | pending : Waker → Token T
  | complete : T → Token T
  deriving DecidableEq, Repr

/-- The Poll result type of the Future trait: Ready with the output, or
Pending. -/
inductive Poll (T : Type) where
  | ready : T → Poll T
  | pending : Poll T
  deriving DecidableEq, Repr

/-- CompletionToken set: lock the cell, build Token::Complete(value), and
in every arm of the match mem::swap it with the cell contents; in the
Pending arm the swapped-out waiter is woken. Returns the new cell state
together with the waker that was woken, if any. -/
def set {T : Type} (inner : Token T) (value : T) : Token T × Option Waker :=
  match inner with
  | Token.new => (Token.complete value, none)
  | Token.pending waker => (Token.complete value, some waker)
  | Token.complete _ => (Token.complete value, none)

/-- The inner match of the Complete arm of poll: after the mem::swap the
local token holds the previous cell contents and the cell holds
Token::New; if the local token is Complete the value is returned Ready,
otherwise the fallback swaps a fresh waiter back into the cell and
reports Pending. First component is the final cell state, second the
poll result. -/
def completeBranch {T : Type} (token : Token T) (waker : Waker) : Token T × Poll T :=
  match token with
  | Token.complete value => (Token.new, Poll.ready value)
  | _ => (Token.pending waker, Poll.pending)

/-- The Future poll implementation: on New, swap in Pending with a clone
of the waker of the calling context and report Pending; on Pending,
report Pending leaving the cell untouched; on Complete, swap the cell to
New and run the inner match of the Complete arm on the swapped-out
token. -/
def poll {T : Type} (inner : Token T) (waker : Waker) : Token T × Poll T :=
  match inner with
  | Token.new => (Token.pending waker, Poll.pending)
  | Token.pending w => (Token.pending w, Poll.pending)
  | Token.complete v => completeBranch (Token.complete v) waker

/-- The PartialEq implementation on the two locked cell states; samePtr
is the result of comparing the two Arc pointers, used only in the
Pending arm. New cells are equal, Complete cells compare the values,
mixed states are unequal. -/
def tokenEq {T : Type} [BEq T] (lhs rhs : Token T) (samePtr : Bool) : Bool :=
  match lhs, rhs with
  | Token.new, Token.new => true
  | Token.pending _, Token.pending _ => samePtr
  | Token.complete a, Token.complete b => a == b
  | _, _ => false

/-- A heap of shared cells indexed by Arc pointer identity; a token
handle is the index of the cell its Arc points to. -/
def Store (T : Type) := Nat → Token T

/-- Clone on CompletionToken is the derived Clone, which clones the Arc:
the new handle points to the same cell. -/
def cloneToken (t : Nat) : Nat := t

/-- CompletionToken new allocates a fresh cell holding Token::New at an
unused index. -/
def newToken {T : Type} (s : Store T) (n : Nat) : Store T :=
  fun i => if i = n then Token.new else s i

/-- Depositing through a handle runs set on the cell the handle points
to, leaving every other cell unchanged. -/
def depositAt {T : Type} (s : Store T) (t : Nat) (v : T) : Store T × Option Waker :=
  ((fun i => if i = t then (set (s t) v).1 else s i), (set (s t) v).2)

/-- Polling through a handle runs poll on the cell the handle points to,
leaving every other cell unchanged. -/
def pollAt {T : Type} (s : Store T) (t : Nat) (w : Waker) : Store T × Poll T :=
  ((fun i => if i = t then (poll (s t) w).1 else s i), (poll (s t) w).2)

/-- Equality of two handles: eq locks self.inner and then other.inner in
sequence. When the two handles share the cell those are the same std
Mutex, and the second lock of a mutex already held by the current thread
never returns normally (the standard library documents deadlock or a
runtime error), modelled as none; otherwise both locks are acquired and
the match runs on the two cell states via tokenEq, pointer identity of
the two distinct Arcs being equality of the indices. -/
def eqTok {T : Type} [BEq T] (s : Store T) (t1 t2 : Nat) : Option Bool :=
  if t1 = t2 then none
  else some (tokenEq (s t1) (s t2) (t1 == t2))

/-- Repeated polling of one cell with a list of wakers, one poll per
waker, threading the cell state; returns the final state and the list of
poll results in order. -/
def pollMany {T : Type} : Token T → List Waker → Token T × List (Poll T)
  | s, [] => (s, [])
  | s, w :: ws =>
    let r := poll s w
    let rest := pollMany r.1 ws
    (rest.1, r.2 :: rest.2)

/-- Whatever the prior cell state, set leaves the cell holding the new
value. -/
theorem set_fst {T : Type} (x : Token T) (v : T) : (set x v).1 = Token.complete v := by
  cases x <;> rfl

/-- C1: polling a cell that holds a value v returns Ready v and leaves
the cell in the empty New state with no registered waiter, all in the one
step that models the critical section; a second poll of the same deposit
returns Pending, so a single deposit is delivered by at most one read;
and after the read a further deposit and read cycle works, yielding the
new value. -/
theorem poll_ready_once_and_reusable {T : Type} (v u : T) (w w2 w3 : Waker) :
    poll (Token.complete v) w = (Token.new, Poll.ready v)
    ∧ (poll (poll (Token.complete v) w).1 w2).2 = Poll.pending
    ∧ (poll (set (poll (Token.complete v) w).1 u).1 w3).2 = Poll.ready u :=
  ⟨rfl, rfl, rfl⟩

/-- C2: from every prior cell state, set leaves the cell holding the new
value; after two deposits of a then b before any read, a read yields b,
and the read after that yields no value, so exactly one read returns a
value and the first deposit is not buffered. -/
theorem set_overwrites_last_write_wins {T : Type} (inner : Token T) (a b : T)
    (w w2 : Waker) :
    (set inner b).1 = Token.complete b
    ∧ (poll (set (set inner a).1 b).1 w).2 = Poll.ready b
    ∧ (poll (poll (set (set inner a).1 b).1 w).1 w2).2 = Poll.pending := by
  refine ⟨set_fst inner b, ?_, ?_⟩ <;> cases inner <;> rfl

/-- C3: set on a cell that is empty with a registered waiter removes the
waiter from the slot, wakes exactly that one waker, and leaves the cell
holding the new value with no waiter; set on a cell with no registered
waiter (New, or Complete from an unread deposit) stores the value and
wakes nobody. -/
theorem set_takes_and_wakes_waiter {T : Type} (w : Waker) (v x : T) :
    set (Token.pending w : Token T) v = (Token.complete v, some w)
    ∧ set (Token.new : Token T) v = (Token.complete v, none)
    ∧ set (Token.complete x) v = (Token.complete v, none) :=
  ⟨rfl, rfl, rfl⟩

/-- C4 counterexample: two handles whose cells are both empty in the New
state, held in distinct cells at indices 0 and 1 (so both locks are
acquired and eq returns), compare equal, refuting the claim that
equality of tokens with an empty cell requires identity of the shared
cell. -/
theorem eq_true_on_distinct_new_cells :
    eqTok (fun _ => (Token.new : Token Nat)) 0 1 = some true ∧ (0 : Nat) ≠ 1 :=
  ⟨rfl, by decide⟩

/-- C4 amended: when both cells hold values, eq compares the values; when
both cells are empty in the freshly created New state with no waiter, eq
returns true even for tokens of distinct cells; when both cells are
empty with registered waiters and the tokens hold distinct cells, eq
returns false; every mixed-state pair is unequal; and a call of eq on
two handles of the same shared cell never returns, since eq locks the
same mutex twice, so equality is never observed to hold by cell
identity. The tokenEq conjuncts transcribe the match arms, with the
Pending arm taken at the pointer comparison false that the reachable
distinct-cell path produces; the eqTok conjuncts run the whole operation
on concrete distinct-cell and same-cell handles. -/
theorem tokenEq_case_analysis (a b : Nat) (w1 w2 : Waker) (p : Bool) :
    tokenEq (Token.complete a) (Token.complete b) p = (a == b)
    ∧ tokenEq (Token.new : Token Nat) Token.new p = true
    ∧ tokenEq (Token.pending w1 : Token Nat) (Token.pending w2) false = false
    ∧ tokenEq (Token.new : Token Nat) (Token.pending w1) p = false
    ∧ tokenEq (Token.new : Token Nat) (Token.complete a) p = false
    ∧ tokenEq (Token.pending w1 : Token Nat) (Token.complete a) p = false
    ∧ tokenEq (Token.pending w1 : Token Nat) Token.new p = false
    ∧ tokenEq (Token.complete a) (Token.new : Token Nat) p = false
    ∧ tokenEq (Token.complete a) (Token.pending w1) p = false
    ∧ eqTok (fun _ => (Token.pending 7 : Token Nat)) 2 3 = some false
    ∧ eqTok (fun i => if i = 2 then Token.complete 4 else Token.complete 9) 2 3
        = some false
    ∧ eqTok (fun _ => (Token.pending 7 : Token Nat)) 2 2 = none
    ∧ eqTok (fun _ => (Token.new : Token Nat)) 2 2 = none :=
  ⟨rfl, rfl, rfl, rfl, rfl, rfl, rfl, rfl, rfl, rfl, rfl, rfl, rfl⟩

/-- C5 counterexample: polling an empty cell that already holds a
registered waiter 0 with a new caller whose waker is 1 leaves waiter 0 in
the slot; the slot does not hold the waker of the most recent caller,
refuting the claim that poll replaces a previously registered handle. -/
theorem poll_does_not_replace_waiter :
    (poll (Token.pending 0 : Token Nat) 1).1 = Token.pending 0
    ∧ (poll (Token.pending 0 : Token Nat) 1).1 ≠ Token.pending 1 :=
  ⟨rfl, by decide⟩

/-- C5 amended: poll registers the wake handle of the caller only when
the cell is empty with no waiter registered; when a waiter is already
registered, poll leaves that existing waiter in place, so it is the first
observer to suspend, not the most recent, that keeps the slot and is
guaranteed the wake-up from a later deposit. -/
theorem poll_registers_only_when_unregistered {T : Type} (w w1 w2 : Waker) :
    (poll (Token.new : Token T) w).1 = Token.pending w
    ∧ (poll (Token.pending w1 : Token T) w2).1 = Token.pending w1 :=
  ⟨rfl, rfl⟩

/-- C6: polling an empty cell with no registered waiter stores the waker
of the calling context into the waiter slot and returns Pending, the
value slot staying empty. -/
theorem poll_new_registers_and_pends {T : Type} (w : Waker) :
    poll (Token.new : Token T) w = (Token.pending w, Poll.pending) := rfl

/-- C7: any number of repeated polls of an empty cell with waiter w1
already registered, with arbitrary wakers, all return Pending and leave
the cell unchanged, still holding waiter w1 and no value. -/
theorem repeated_poll_pending_idempotent {T : Type} (w1 : Waker) (ws : List Waker) :
    pollMany (Token.pending w1 : Token T) ws
      = (Token.pending w1, ws.map fun _ => Poll.pending) := by
  induction ws with
  | nil => rfl
  | cons w ws ih => simp [pollMany, poll, ih]

/-- C8: a clone of a handle points to the same cell, so a deposit through
the clone is seen by a read through the original and a deposit through
the original is seen by a read through the clone, each read yielding
exactly the deposited value. -/
theorem clone_shares_cell {T : Type} (s : Store T) (t : Nat) (v : T) (w : Waker) :
    cloneToken t = t
    ∧ (pollAt (depositAt s (cloneToken t) v).1 t w).2 = Poll.ready v
    ∧ (pollAt (depositAt s t v).1 (cloneToken t) w).2 = Poll.ready v := by
  refine ⟨rfl, ?_, ?_⟩ <;>
    simp [cloneToken, pollAt, depositAt, set_fst, poll, completeBranch]

/-- C9: once poll has matched the cell as Complete inside the critical
section, the swapped-out token is that same Complete value, so the inner
match always takes the Ready arm: the fallback that would re-register a
waker and return Pending is unreachable, a poll that observes a deposited
value completes with it, and its result is never Pending. -/
theorem complete_branch_fallback_unreachable {T : Type} (v : T) (w : Waker) :
    completeBranch (Token.complete v) w = (Token.new, Poll.ready v)
    ∧ poll (Token.complete v) w = (Token.new, Poll.ready v)
    ∧ (poll (Token.complete v) w).2 ≠ Poll.pending := by
  refine ⟨rfl, rfl, ?_⟩
  simp [poll, completeBranch]

/-- C10: two independently constructed tokens, allocated by new at the
distinct cell indices 5 and 6 of any heap, both start in the New state;
eq locks the two distinct mutexes and returns true even though the
tokens do not share a cell. -/
theorem fresh_tokens_compare_equal (s : Store Nat) :
    eqTok (newToken (newToken s 5) 6) 5 6 = some true ∧ (5 : Nat) ≠ 6 := by
  refine ⟨?_, by decide⟩
  simp [eqTok, newToken, tokenEq]

end CompletionToken
